import Mathlib

/-!
Shallow embedding of the patient biometric reconciliation engine of the
emulator-totvs repository (src/services/patientSyncService.ts, the import
dialog, the patient manager and the patients persistence service).

Conventions of the embedding:
  - JavaScript strings are Lean `String`s; the JS falsy-fallback `a || b`
    on strings is `jsOr` ("" is the only falsy string), and `a || b` on
    numbers is `jsOrInt` (0 is the only falsy integer in the shapes used).
  - A field that may be absent on a loosely-typed response object is held
    as `""` / `0` when the code reads it with `||` (absent and empty are
    indistinguishable there), and as an `Option` when the code reads it
    with `??` (nullish coalescing distinguishes empty from absent).
  - The outcome of a Tauri `invoke` call is passed in explicitly as an
    `Except String _` value: `.error e` stands for a rejected promise
    whose `error.message` is `e`.
  - Case mapping (`toLowerCase`) and `trim` are modelled on ASCII by the
    executable helpers `jsToLower` and `jsTrim` below.
-/

/-- jsOr models the JavaScript expression `a || b` on strings: the empty
string is the only falsy string value. -/
def jsOr (a b : String) : String := if a = "" then b else a

/-- jsOrInt models the JavaScript expression `a || b` on integers: 0 is
falsy. -/
def jsOrInt (a b : Int) : Int := if a = 0 then b else a

/-- padStart models JavaScript `s.padStart(n, c)`: left-pad to length `n`
with `c`, leaving `s` unchanged when it is already at least that long. -/
def padStart (n : Nat) (c : Char) (s : String) : String :=
  (List.replicate (n - s.length) c).asString ++ s

/-- strIncludes models JavaScript `s.includes(pat)`: `pat` occurs as a
contiguous substring of `s`. -/
def strIncludes (s pat : String) : Bool :=
  decide (pat.toList <:+: s.toList)

/-- jsToLower models JavaScript `s.toLowerCase()` on the basic latin
range (the only case mapping the modelled inputs use). -/
def jsToLower (s : String) : String :=
  (s.toList.map Char.toLower).asString

/-- jsTrim models JavaScript `s.trim()`: remove leading and trailing
whitespace. -/
def jsTrim (s : String) : String :=
  ((s.toList.dropWhile Char.isWhitespace).reverse.dropWhile
    Char.isWhitespace).reverse.asString

/-- One fingerprint entry of a Patient (src/types/patient.ts,
DigitalBiometric). -/
structure DigitalBiometric where
  finger : String
  data : String
deriving Repr, DecidableEq

/-- A locally stored patient record (src/types/patient.ts, Patient). -/
structure Patient where
  id : Nat
  name : String
  wallet : String
  facialBiometric : String
  digitalBiometrics : List DigitalBiometric
  imported : Bool
deriving Repr, DecidableEq

/-- Outcome of a single synchronize operation
(patientSyncService.ts, SyncResult). -/
structure SyncResult where
  success : Bool
  message : String
  updatedPatient : Option Patient
deriving Repr, DecidableEq

/-- Search parameters (patientSyncService.ts, BeneficiarySearchParams);
optional fields are `""` when not supplied. -/
structure BeneficiarySearchParams where
  guarantor : String
  modality : String
  proposal : String
  contract : String
deriving Repr, DecidableEq

/-- Normalized external beneficiary (patientSyncService.ts, Beneficiary).
The TypeScript interface also allows alternate name keys `fullName` and
`nome`; values the normalizers never set are `""`. -/
structure Beneficiary where
  name : String
  fullName : String
  nome : String
  healthInsurer : String
  cardNumber : String
  completeCardNumber : String
deriving Repr, DecidableEq

/-- Raw result record of the `search_beneficiaries` invoke, with the
loosely-typed fields the normalizer reads. `healthInsurer` and
`cardNumber` stand for `String(b.field ?? "")` already applied;
`completeCardNumber` is read with `??` in the source, so absence is
distinguished from the empty string by an `Option`. -/
structure RawSearchResult where
  name : String
  cardName : String
  fullName : String
  nome : String
  healthInsurer : String
  cardNumber : String
  completeCardNumber : Option String
deriving Repr, DecidableEq

/-- Raw response of the `get_beneficiary_details` invoke; all fields are
read with `||` in the source, so absent and empty coincide as `""`.
`personName` stands for `details.person?.name`. -/
structure RawDetails where
  cardName : String
  name : String
  personName : String
  healthInsurer : String
  cardNumber : String
  completeCardNumber : String
deriving Repr, DecidableEq

/-- Raw entry of the `get_fingerprints` invoke response; `fingerCode` and
`code` are read with `||` (0 falsy), `biometry` and `data` with `||`
("" falsy). -/
structure RawFingerprint where
  fingerCode : Int
  code : Int
  biometry : String
  data : String
deriving Repr, DecidableEq

/-- Normalized fingerprint record produced by `getFingerprints`. -/
structure Fingerprint where
  fingerCode : Int
  biometry : String
deriving Repr, DecidableEq

/-- Raw response of the `get_facial_biometry` invoke: a bare string, an
object exposing a `photo` field, or some other shape. -/
inductive FacialRaw where
  | str (s : String)
  | obj (photo : String)
  | other
deriving Repr, DecidableEq

/-- getFingerName (patientSyncService.ts, PatientSyncService.getFingerName):
fixed table for finger codes 1-10, fallback `"Dedo {code}"`. -/
def getFingerName (fingerCode : Int) : String :=
  if fingerCode = 1 then "Mínimo Esquerdo"
  else if fingerCode = 2 then "Anelar Esquerdo"
  else if fingerCode = 3 then "Médio Esquerdo"
  else if fingerCode = 4 then "Indicador Esquerdo"
  else if fingerCode = 5 then "Polegar Esquerdo"
  else if fingerCode = 6 then "Polegar Direito"
  else if fingerCode = 7 then "Indicador Direito"
  else if fingerCode = 8 then "Médio Direito"
  else if fingerCode = 9 then "Anelar Direito"
  else if fingerCode = 10 then "Mínimo Direito"
  else "Dedo " ++ toString fingerCode

/-- getFingerNameByCode (ImportPatientDialog component): the duplicated
copy of the finger-code table used by the import path. -/
def getFingerNameByCode (fingerCode : Int) : String :=
  if fingerCode = 1 then "Mínimo Esquerdo"
  else if fingerCode = 2 then "Anelar Esquerdo"
  else if fingerCode = 3 then "Médio Esquerdo"
  else if fingerCode = 4 then "Indicador Esquerdo"
  else if fingerCode = 5 then "Polegar Esquerdo"
  else if fingerCode = 6 then "Polegar Direito"
  else if fingerCode = 7 then "Indicador Direito"
  else if fingerCode = 8 then "Médio Direito"
  else if fingerCode = 9 then "Anelar Direito"
  else if fingerCode = 10 then "Mínimo Direito"
  else "Dedo " ++ toString fingerCode

/-- directoryQueryId (patientSyncService.ts, getBeneficiaryDetails line 88):
`cardNumber.slice(-13).replace(/^0+/, "")` - the last 13 characters with
the leading run of zeros removed. -/
def directoryQueryId (cardNumber : String) : String :=
  ((cardNumber.toList.drop (cardNumber.length - 13)).dropWhile
    (fun c => c = '0')).asString

/-- normalizeBeneficiary: the per-record normalization inside
searchBeneficiaries (patientSyncService.ts lines 55-65): coerce
`healthInsurer`/`cardNumber` to strings, compute `completeCardNumber`
via the canonicalizer when absent, resolve the name through the
alternate-key chain `name || cardName || fullName || nome || ""`. -/
def normalizeBeneficiary (b : RawSearchResult) : Beneficiary :=
  let healthInsurerStr := b.healthInsurer
  let cardNumStr := b.cardNumber
  let completeCard := b.completeCardNumber.getD
    (padStart 4 '0' healthInsurerStr ++ padStart 13 '0' cardNumStr)
  { name := jsOr b.name (jsOr b.cardName (jsOr b.fullName b.nome)),
    fullName := "", nome := "",
    healthInsurer := healthInsurerStr,
    cardNumber := cardNumStr,
    completeCardNumber := completeCard }

/-- matchesLocalFilter: the predicate of the extra local filter in
searchBeneficiaries (lines 70-75). Only the resolved name is lowercased
before the substring test; the three identifier fields are matched
against the lowercased guarantor as they are. -/
def matchesLocalFilter (searchTerm : String) (b : Beneficiary) : Bool :=
  strIncludes (jsToLower b.name) searchTerm ||
  strIncludes b.healthInsurer searchTerm ||
  strIncludes b.cardNumber searchTerm ||
  strIncludes b.completeCardNumber searchTerm

/-- searchBeneficiaries (patientSyncService.ts lines 46-79): normalizes
the raw search results and, when the guarantor parameter is non-empty
(JS truthiness), applies the extra local filter with the lowercased
guarantor as search term. The raw result list stands for the resolved
value of the `search_beneficiaries` invoke. -/
def searchBeneficiaries (params : BeneficiarySearchParams)
    (results : List RawSearchResult) : List Beneficiary :=
  let normalized := results.map normalizeBeneficiary
  if params.guarantor ≠ "" then
    let searchTerm := jsToLower params.guarantor
    normalized.filter (matchesLocalFilter searchTerm)
  else
    normalized

/-- uiSearchBeneficiaries: the searchBeneficiaries flow of the
ImportPatientDialog component (the sole caller of the service search):
a blank (whitespace-only) guarantor short-circuits with an error message
before the service - and hence any directory request - is reached;
otherwise the trimmed inputs are passed to the service. -/
def uiSearchBeneficiaries (guarantor modality proposal contract : String)
    (results : List RawSearchResult) : Except String (List Beneficiary) :=
  if jsTrim guarantor = "" then
    .error "O campo \x27Contratante (Guarantor)\x27 é obrigatório para a busca avançada."
  else
    .ok (searchBeneficiaries
      { guarantor := jsTrim guarantor, modality := jsTrim modality,
        proposal := jsTrim proposal, contract := jsTrim contract } results)

/-- normalizeDetails: the response normalization inside
getBeneficiaryDetails (patientSyncService.ts lines 92-103): name via
`cardName || name || person?.name || ""`, healthInsurer coerced and
left-padded to 4, cardNumber falling back to the queried card number,
completeCardNumber falling back to the concatenation. -/
def normalizeDetails (cardNumber : String) (details : RawDetails) : Beneficiary :=
  let name := jsOr details.cardName (jsOr details.name details.personName)
  let healthInsurer := padStart 4 '0' details.healthInsurer
  let cardNumberStr := jsOr details.cardNumber cardNumber
  let completeCardNumber :=
    jsOr details.completeCardNumber (healthInsurer ++ cardNumberStr)
  { name := name, fullName := "", nome := "",
    healthInsurer := healthInsurer,
    cardNumber := cardNumberStr,
    completeCardNumber := completeCardNumber }

/-- getBeneficiaryDetails (patientSyncService.ts lines 81-106): queries
the directory with `directoryQueryId cardNumber` and normalizes the
response; a rejected invoke propagates (no catch in the source). The
`resp` argument stands for the outcome of the `get_beneficiary_details`
invoke issued with the de-padded query id. -/
def getBeneficiaryDetails (cardNumber : String)
    (resp : Except String RawDetails) : Except String Beneficiary :=
  resp.map (normalizeDetails cardNumber)

/-- normFingerprint: the per-entry conversion inside getFingerprints
(lines 127-130): `fingerCode || code || 0` and `biometry || data || ""`. -/
def normFingerprint (fp : RawFingerprint) : Fingerprint :=
  { fingerCode := jsOrInt fp.fingerCode (jsOrInt fp.code 0),
    biometry := jsOr fp.biometry (jsOr fp.data "") }

/-- getFingerprints (patientSyncService.ts lines 108-135): converts the
response entries; a rejected invoke is caught and degrades to the empty
list. -/
def getFingerprints (resp : Except String (List RawFingerprint)) :
    List Fingerprint :=
  match resp with
  | .error _ => []
  | .ok l => l.map normFingerprint

/-- sanitizeBase64: the normalization inside getFacialBiometry (lines
144-167): accept a bare string or a `photo`-carrying object (anything
else gives ""), keep only the part after the last comma of a data URI,
then strip all whitespace and trim. -/
def sanitizeBase64 (raw : FacialRaw) : String :=
  let base64 :=
    match raw with
    | .str s => s
    | .obj photo => if photo = "" then "" else photo
    | .other => ""
  let base64 :=
    if base64.toList.contains ',' then
      (base64.split (fun c => c = ',')).getLastD ""
    else base64
  jsTrim ((base64.toList.filter (fun c => !c.isWhitespace)).asString)

/-- getFacialBiometry (patientSyncService.ts lines 137-172): sanitizes
the response; a rejected invoke is caught and degrades to "". -/
def getFacialBiometry (resp : Except String FacialRaw) : String :=
  match resp with
  | .error _ => ""
  | .ok raw => sanitizeBase64 raw

/-- Outcomes of the three directory invokes consulted during one
synchronize or import of a single patient. -/
structure FetchEnv where
  detail : Except String RawDetails
  fingerprints : Except String (List RawFingerprint)
  facial : Except String FacialRaw

/-- syncPatient (patientSyncService.ts lines 174-230): refuses
non-imported patients; otherwise issues the three fetches for
`patient.wallet` via `Promise.all`. Of the three wrapped calls only
`getBeneficiaryDetails` can reject (the other two catch internally), so
the catch branch fires exactly on a detail rejection. On success the
merge keeps `patient.name` when non-empty, takes the directory complete
card number when non-empty, and unconditionally replaces the biometric
fields. -/
def syncPatient (patient : Patient) (env : FetchEnv) : SyncResult :=
  if !patient.imported then
    { success := false,
      message := "Apenas pacientes importados podem ser sincronizados.",
      updatedPatient := none }
  else
    match getBeneficiaryDetails patient.wallet env.detail with
    | .error e =>
      { success := false,
        message := "Erro ao sincronizar paciente: " ++ e,
        updatedPatient := none }
    | .ok details =>
      let fingerprintsArray := getFingerprints env.fingerprints
      let facialBiometry := getFacialBiometry env.facial
      let digitalBiometrics := fingerprintsArray.map (fun fp =>
        ({ finger := getFingerName fp.fingerCode, data := fp.biometry } :
          DigitalBiometric))
      let apiResolvedName :=
        jsTrim (jsOr details.name (jsOr details.fullName details.nome))
      let updatedPatient : Patient :=
        { patient with
          name := jsOr patient.name apiResolvedName,
          wallet := jsOr details.completeCardNumber patient.wallet,
          digitalBiometrics := digitalBiometrics,
          facialBiometric := facialBiometry }
      { success := true,
        message := "Paciente \"" ++ updatedPatient.name ++
          "\" sincronizado com sucesso!",
        updatedPatient := some updatedPatient }

/-- runSync: the sequential for-loop body of syncAllPatients - one
syncPatient call per imported patient, in order, each against the fetch
outcomes the directory produces at that step (indexed here by position);
no result aborts the iteration, since syncPatient never throws. -/
def runSync (envs : Nat → FetchEnv) : Nat → List Patient → List SyncResult
  | _, [] => []
  | i, p :: rest => syncPatient p (envs i) :: runSync envs (i + 1) rest

/-- syncAllPatients (patientSyncService.ts lines 232-260): filters to the
imported records, answers a single informational failure when none
remain, and otherwise collects one SyncResult per imported patient from
the sequential loop. -/
def syncAllPatients (patients : List Patient) (envs : Nat → FetchEnv) :
    List SyncResult :=
  let importedPatients := patients.filter (fun p => p.imported)
  if importedPatients.length = 0 then
    [{ success := false,
       message := "Nenhum paciente importado para sincronizar.",
       updatedPatient := none }]
  else
    runSync envs 0 importedPatients

/-- importPatient (ImportPatientDialog component, lines 109-148): builds
a draft Patient (id 0, imported true) from an already-normalized
beneficiary selected in the search results, fetching fingerprints and
facial biometry for the resolved wallet; fingerprint entries whose data
is empty are filtered out. -/
def importPatient (beneficiary : Beneficiary)
    (fps : Except String (List RawFingerprint))
    (facial : Except String FacialRaw) : Patient :=
  let resolvedName :=
    jsTrim (jsOr beneficiary.name (jsOr beneficiary.fullName beneficiary.nome))
  let resolvedWallet :=
    jsOr beneficiary.completeCardNumber
      (padStart 4 '0' beneficiary.healthInsurer ++
        padStart 13 '0' beneficiary.cardNumber)
  let fingerprints := getFingerprints fps
  let facialBiometry := getFacialBiometry facial
  let digitalBiometrics :=
    (fingerprints.map (fun fp =>
      ({ finger := getFingerNameByCode fp.fingerCode, data := fp.biometry } :
        DigitalBiometric))).filter (fun b => b.data != "")
  { id := 0,
    name := resolvedName,
    wallet := resolvedWallet,
    facialBiometric := jsOr facialBiometry "",
    digitalBiometrics := digitalBiometrics,
    imported := true }

/-- handleCardSearch (ImportPatientDialog component, lines 150-196): the
card-number import path; resolves the beneficiary via
getBeneficiaryDetails (whose rejection propagates as an error) and then
assembles the draft Patient exactly like importPatient, filtering
fingerprint entries with empty data. -/
def handleCardSearch (cardNumber : String)
    (detailResp : Except String RawDetails)
    (fps : Except String (List RawFingerprint))
    (facial : Except String FacialRaw) : Except String Patient :=
  if jsTrim cardNumber = "" then
    .error "Digite o número da carteira para buscar."
  else
    match getBeneficiaryDetails (jsTrim cardNumber) detailResp with
    | .error e => .error e
    | .ok beneficiary =>
      let resolvedName :=
        jsTrim (jsOr beneficiary.name
          (jsOr beneficiary.fullName beneficiary.nome))
      let resolvedWallet :=
        jsOr beneficiary.completeCardNumber (jsTrim cardNumber)
      let fingerprints := getFingerprints fps
      let facialBiometry := getFacialBiometry facial
      let digitalBiometrics :=
        (fingerprints.map (fun fp =>
          ({ finger := getFingerNameByCode fp.fingerCode,
             data := fp.biometry } : DigitalBiometric))).filter
          (fun b => b.data != "")
      .ok { id := 0,
            name := resolvedName,
            wallet := resolvedWallet,
            facialBiometric := jsOr facialBiometry "",
            digitalBiometrics := digitalBiometrics,
            imported := true }

/-- handleSavePatient (PatientManager component, lines 359-383), reduced
to its list transformation: a draft with id 0 gets
`max(existing ids, default 0) + 1` and is appended; a nonzero id
replaces the record with the matching id. -/
def handleSavePatient (patients : List Patient) (patient : Patient) :
    List Patient :=
  if patient.id = 0 then
    let maxId := patients.foldl (fun m p => Nat.max m p.id) 0
    patients ++ [{ patient with id := maxId + 1 }]
  else
    patients.map (fun p => if p.id = patient.id then patient else p)

/-- handleDeletePatient (PatientManager component, lines 400-414), reduced
to its list transformation: remove the record with the given id. -/
def handleDeletePatient (patients : List Patient) (id : Nat) :
    List Patient :=
  patients.filter (fun p => p.id != id)

/-- spec_lastChars follows the words of the spec for the first half of
directoryQueryId: "takes the last 13 characters of wallet". -/
def spec_lastChars (n : Nat) (s : String) : String :=
  (s.toList.drop (s.toList.length - n)).asString

/-- spec_stripLeadingZeros follows the words of the spec for the second
half of directoryQueryId: "then strips leading zeros". -/
def spec_stripLeadingZeros (s : String) : String :=
  (s.toList.dropWhile (fun c => c = '0')).asString

/-- Fixture: an imported patient with a non-empty facial biometric, used
to exercise the syncPatient facial-rejection scenario. -/
def c1_patient : Patient :=
  { id := 7, name := "Maria", wallet := "00010000000000042",
    facialBiometric := "OLD",
    digitalBiometrics := [{ finger := "Polegar Direito", data := "d" }],
    imported := true }

/-- Fixture: a detail response carrying a directory-resolved name. -/
def c1_detail : RawDetails :=
  { cardName := "Maria Souza", name := "", personName := "",
    healthInsurer := "1", cardNumber := "42", completeCardNumber := "" }

/-- Fixture: fetch outcomes where detail and fingerprints resolve and the
facial invoke rejects. -/
def c1_env : FetchEnv :=
  { detail := .ok c1_detail, fingerprints := .ok [],
    facial := .error "Network Error" }

/-- Fixture: an imported patient for the empty-biometry sync scenario. -/
def c2_patient : Patient :=
  { id := 9, name := "Bea", wallet := "W", facialBiometric := "F",
    digitalBiometrics := [], imported := true }

/-- Fixture: a bare detail response. -/
def c2_detail : RawDetails :=
  { cardName := "", name := "", personName := "",
    healthInsurer := "1", cardNumber := "42", completeCardNumber := "" }

/-- Fixture: fetch outcomes whose fingerprint response holds one entry
with an empty biometry payload. -/
def c2_env : FetchEnv :=
  { detail := .ok c2_detail,
    fingerprints := .ok [{ fingerCode := 1, code := 0, biometry := "", data := "" }],
    facial := .ok (.str "abc") }

/-- Fixture: a normalized beneficiary for the import-path filter. -/
def c2_beneficiary : Beneficiary :=
  { name := "Bia", fullName := "", nome := "", healthInsurer := "1",
    cardNumber := "42", completeCardNumber := "00010000000000042" }

/-- Fixture: a fingerprint response mixing an empty and a non-empty
biometry payload. -/
def c2_fpsResp : Except String (List RawFingerprint) :=
  .ok [{ fingerCode := 1, code := 0, biometry := "", data := "" },
       { fingerCode := 2, code := 0, biometry := "bb", data := "" }]

/-- Fixture: an imported patient whose local name is "Maria". -/
def c3_patient : Patient :=
  { id := 7, name := "Maria", wallet := "00010000000000042",
    facialBiometric := "OLD", digitalBiometrics := [], imported := true }

/-- Fixture: a detail response resolving to the name "Maria Souza". -/
def c3_details : RawDetails :=
  { cardName := "Maria Souza", name := "", personName := "",
    healthInsurer := "1", cardNumber := "42", completeCardNumber := "" }

/-- Fixture: all three fetches succeed; the facial payload is empty. -/
def c3_env : FetchEnv :=
  { detail := .ok c3_details, fingerprints := .ok [],
    facial := .ok (.str "") }

/-- Fixture: a successful detail response for the batch scenario. -/
def c4_details : RawDetails :=
  { cardName := "Nome", name := "", personName := "",
    healthInsurer := "1", cardNumber := "42", completeCardNumber := "" }

/-- Fixture: fetch outcomes on which syncPatient succeeds. -/
def c4_envOk : FetchEnv :=
  { detail := .ok c4_details, fingerprints := .ok [],
    facial := .ok (.str "/9j/abc") }

/-- Fixture: fetch outcomes whose detail invoke rejects. -/
def c4_envFail : FetchEnv :=
  { detail := .error "timeout", fingerprints := .ok [], facial := .ok .other }

/-- Fixture: the batch environment where only the second patient's detail
fetch rejects. -/
def c4_envs : Nat → FetchEnv := fun j => if j = 1 then c4_envFail else c4_envOk

/-- Fixture: three imported patients. -/
def c4_patients : List Patient :=
  [{ id := 1, name := "P1", wallet := "W1", facialBiometric := "",
     digitalBiometrics := [], imported := true },
   { id := 2, name := "P2", wallet := "W2", facialBiometric := "",
     digitalBiometrics := [], imported := true },
   { id := 3, name := "P3", wallet := "W3", facialBiometric := "",
     digitalBiometrics := [], imported := true }]

/-- Fixture: search parameters with the upper-case guarantor "A". -/
def c6_params : BeneficiarySearchParams :=
  { guarantor := "A", modality := "", proposal := "", contract := "" }

/-- Fixture: a raw search record whose healthInsurer is the upper-case
letter "A" and whose other fields cannot match. -/
def c6_raw : RawSearchResult :=
  { name := "", cardName := "", fullName := "", nome := "",
    healthInsurer := "A", cardNumber := "", completeCardNumber := some "X" }

/-- Fixture: a draft patient (id 0) awaiting store id assignment. -/
def patientDraft (nm : String) : Patient :=
  { id := 0, name := nm, wallet := "", facialBiometric := "",
    digitalBiometrics := [], imported := false }

/-- Fixture: the store after creating two patients in an empty store. -/
def c8_store2 : List Patient :=
  handleSavePatient (handleSavePatient [] (patientDraft "a")) (patientDraft "b")

/-- Fixture: the store after creating three patients in an empty store. -/
def c8_store3 : List Patient :=
  handleSavePatient c8_store2 (patientDraft "c")

/-- Fixture: an imported patient for the identity-preservation witness. -/
def c10_patient : Patient :=
  { id := 5, name := "Ana", wallet := "W", facialBiometric := "F",
    digitalBiometrics := [], imported := true }

/-- Fixture: a detail response with every field absent. -/
def c10_detail : RawDetails :=
  { cardName := "", name := "", personName := "",
    healthInsurer := "", cardNumber := "", completeCardNumber := "" }

/-- Fixture: successful fetch outcomes with empty payloads. -/
def c10_env : FetchEnv :=
  { detail := .ok c10_detail, fingerprints := .ok [], facial := .ok .other }

/-- Fixture: the record syncPatient produces for `c10_patient` under
`c10_env`. -/
def c10_updated : Patient :=
  { id := 5, name := "Ana", wallet := "0000W", facialBiometric := "",
    digitalBiometrics := [], imported := true }

/-- Helper: the JS fallback with an empty right operand is the identity. -/
theorem jsOr_empty_right (a : String) : jsOr a "" = a := by
  by_cases h : a = "" <;> simp [jsOr, h]

/-- Helper: directoryQueryId computed on a string built from a char list. -/
theorem directoryQueryId_asString (t : List Char) :
    directoryQueryId t.asString =
      ((t.drop (t.length - 13)).dropWhile (fun c => c = '0')).asString := rfl

/-- Helper: the sequential sync loop yields one result per patient. -/
theorem runSync_length (envs : Nat → FetchEnv) :
    ∀ (i : Nat) (l : List Patient), (runSync envs i l).length = l.length := by
  intro i l
  induction l generalizing i with
  | nil => rfl
  | cons p rest ih => simp [runSync, ih]

/-- Helper: the j-th result of the sequential sync loop is the sync of
the j-th patient against the j-th fetch environment. -/
theorem runSync_getElem (envs : Nat → FetchEnv) :
    ∀ (i j : Nat) (l : List Patient),
      (runSync envs i l)[j]? =
        (l[j]?).map (fun p => syncPatient p (envs (i + j))) := by
  intro i j l
  induction l generalizing i j with
  | nil => simp [runSync]
  | cons p rest ih =>
    cases j with
    | zero => simp [runSync]
    | succ j2 =>
      have harith : i + 1 + j2 = i + (j2 + 1) := by omega
      calc (runSync envs i (p :: rest))[j2 + 1]?
          = (runSync envs (i + 1) rest)[j2]? := by simp [runSync]
        _ = (rest[j2]?).map (fun q => syncPatient q (envs (i + 1 + j2))) :=
            ih (i + 1) j2
        _ = ((p :: rest)[j2 + 1]?).map
              (fun q => syncPatient q (envs (i + (j2 + 1)))) := by
            rw [harith]; simp

/-- C7: the finger-code mapping is total on the integers: both copies of
the table (sync path getFingerName, import path getFingerNameByCode)
agree on every integer, codes 1-10 map to the fixed Portuguese anatomical
labels from left pinky to right pinky, and every other integer, 0 and
negatives included, maps to "Dedo {code}". -/
theorem C7_finger_code_mapping :
    (∀ n : Int, getFingerName n = getFingerNameByCode n) ∧
    ([1, 2, 3, 4, 5, 6, 7, 8, 9, 10] : List Int).map getFingerName =
      ["Mínimo Esquerdo", "Anelar Esquerdo", "Médio Esquerdo",
       "Indicador Esquerdo", "Polegar Esquerdo", "Polegar Direito",
       "Indicador Direito", "Médio Direito", "Anelar Direito",
       "Mínimo Direito"] ∧
    (∀ n : Int, (n < 1 ∨ 10 < n) → getFingerName n = "Dedo " ++ toString n) := by
  refine ⟨fun n => rfl, rfl, ?_⟩
  intro n h
  have h1 : n ≠ 1 := by omega
  have h2 : n ≠ 2 := by omega
  have h3 : n ≠ 3 := by omega
  have h4 : n ≠ 4 := by omega
  have h5 : n ≠ 5 := by omega
  have h6 : n ≠ 6 := by omega
  have h7 : n ≠ 7 := by omega
  have h8 : n ≠ 8 := by omega
  have h9 : n ≠ 9 := by omega
  have h10 : n ≠ 10 := by omega
  simp [getFingerName, h1, h2, h3, h4, h5, h6, h7, h8, h9, h10]

/-- C7 witness: the fallback conjunct applied at the concrete out-of-range
code -3. -/
theorem C7_finger_code_mapping_witness :
    ((-3 : Int) < 1 ∨ (10 : Int) < -3) ∧
    getFingerName (-3) = "Dedo " ++ toString (-3 : Int) :=
  ⟨Or.inl (by decide), C7_finger_code_mapping.2.2 (-3) (Or.inl (by decide))⟩

/-- C9: directoryQueryId agrees everywhere with the spec-worded
composition "take the last 13 characters, then strip leading zeros", and
it is idempotent: applying it to its own output changes nothing. -/
theorem C9_directoryQueryId_idempotent :
    (∀ w : String,
      directoryQueryId w = spec_stripLeadingZeros (spec_lastChars 13 w)) ∧
    (∀ w : String, directoryQueryId (directoryQueryId w) = directoryQueryId w) := by
  constructor
  · intro w
    rfl
  · intro w
    rw [show directoryQueryId w =
      ((w.toList.drop (w.length - 13)).dropWhile (fun c => c = '0')).asString
      from rfl]
    rw [directoryQueryId_asString]
    have hsuffix :=
      (List.dropWhile_suffix (l := w.toList.drop (w.length - 13))
        (fun c => decide (c = '0'))).length_le
    have hdrop : (w.toList.drop (w.length - 13)).length =
        w.toList.length - (w.length - 13) := List.length_drop _ _
    have hw : w.length = w.toList.length := rfl
    have hle : ((w.toList.drop (w.length - 13)).dropWhile
        (fun c => c = '0')).length ≤ 13 := by
      simp only [hdrop] at hsuffix
      omega
    rw [Nat.sub_eq_zero_of_le hle, List.drop_zero, List.dropWhile_idempotent]

/-- C8 counterexample: ids are allocated as max(existing)+1, so a deleted
id CAN be reused when it was the maximum: after creating patients 1 and 2
in an empty store, deleting id 2 and creating again hands out id 2 a
second time - refuting "never reuses a deleted id". -/
theorem C8_counterexample :
    c8_store2.map (fun p => p.id) = [1, 2] ∧
    (handleSavePatient (handleDeletePatient c8_store2 2)
      (patientDraft "c")).map (fun p => p.id) = [1, 2] := by
  decide

/-- C8 amended: store id allocation assigns a new patient the id
max(existing ids, default 0) + 1; creating three patients in an empty
store yields ids 1, 2, 3, and after deleting id 2 (an id below the
remaining maximum) creating another patient yields id 4, not 2. A
deleted id that exceeds the maximum of the remaining ids (e.g. the
highest id) is reused. -/
theorem C8_amended_id_allocation :
    (∀ (patients : List Patient) (draft : Patient), draft.id = 0 →
      (handleSavePatient patients draft).map (fun p => p.id) =
        patients.map (fun p => p.id) ++
          [patients.foldl (fun m p => Nat.max m p.id) 0 + 1]) ∧
    (c8_store3.map (fun p => p.id) = [1, 2, 3] ∧
      (handleSavePatient (handleDeletePatient c8_store3 2)
        (patientDraft "d")).map (fun p => p.id) = [1, 3, 4]) := by
  constructor
  · intro patients draft h
    simp [handleSavePatient, h]
  · constructor <;> decide

/-- C8 witness: the allocation law applied to the concrete empty store. -/
theorem C8_amended_id_allocation_witness :
    (patientDraft "a").id = 0 ∧
    (handleSavePatient [] (patientDraft "a")).map (fun p => p.id) =
      ([] : List Patient).map (fun p => p.id) ++
        [([] : List Patient).foldl (fun m p => Nat.max m p.id) 0 + 1] :=
  ⟨rfl, C8_amended_id_allocation.1 [] (patientDraft "a") rfl⟩

/-- C5: a blank (empty or whitespace-only) guarantor makes the search
flow fail fast with the missing-required-field error, and the outcome
does not depend on anything the directory would have answered - no
request is consulted. -/
theorem C5_blank_guarantor_fails_fast :
    ∀ (g m p c : String) (results : List RawSearchResult),
      jsTrim g = "" →
      uiSearchBeneficiaries g m p c results =
        Except.error
          "O campo \x27Contratante (Guarantor)\x27 é obrigatório para a busca avançada." ∧
      ∀ results2 : List RawSearchResult,
        uiSearchBeneficiaries g m p c results =
          uiSearchBeneficiaries g m p c results2 := by
  intro g m p c results h
  constructor
  · simp [uiSearchBeneficiaries, h]
  · intro results2
    simp [uiSearchBeneficiaries, h]

/-- C5 witness: the guard applied to the whitespace-only guarantor. -/
theorem C5_blank_guarantor_fails_fast_witness :
    jsTrim "  " = "" ∧
    uiSearchBeneficiaries "  " "" "" "" [] =
      Except.error
        "O campo \x27Contratante (Guarantor)\x27 é obrigatório para a busca avançada." :=
  ⟨by decide, (C5_blank_guarantor_fails_fast "  " "" "" "" [] (by decide)).1⟩

/-- C6 counterexample: with guarantor "A" the lowercased search term "a"
does occur case-insensitively in the normalized record's healthInsurer
"A", yet the record is dropped - the local filter lowercases only the
resolved name, not the three identifier fields. -/
theorem C6_counterexample :
    c6_params.guarantor ≠ "" ∧
    strIncludes (jsToLower (normalizeBeneficiary c6_raw).healthInsurer)
      (jsToLower c6_params.guarantor) = true ∧
    searchBeneficiaries c6_params [c6_raw] = [] := by
  refine ⟨by decide, by decide, by decide⟩

/-- C6 amended: for a non-blank guarantor the search keeps exactly the
normalized records accepted by matchesLocalFilter with the lowercased
guarantor as term, and that filter is case-insensitive in the resolved
name only - changing the letter case of a record's name never changes
the outcome, while healthInsurer, cardNumber and completeCardNumber are
matched against the lowercased guarantor as they are. -/
theorem C6_amended_local_filter :
    (∀ (params : BeneficiarySearchParams) (results : List RawSearchResult),
      params.guarantor ≠ "" →
      searchBeneficiaries params results =
        (results.map normalizeBeneficiary).filter
          (matchesLocalFilter (jsToLower params.guarantor))) ∧
    (∀ (t : String) (b bv : Beneficiary),
      jsToLower bv.name = jsToLower b.name →
      bv.healthInsurer = b.healthInsurer →
      bv.cardNumber = b.cardNumber →
      bv.completeCardNumber = b.completeCardNumber →
      matchesLocalFilter t bv = matchesLocalFilter t b) := by
  constructor
  · intro params results h
    simp [searchBeneficiaries, h]
  · intro t b bv hn hh hc hcc
    simp [matchesLocalFilter, hn, hh, hc, hcc]

/-- C6 witness: the filter characterization applied to the concrete
search that drops the healthInsurer-"A" record. -/
theorem C6_amended_local_filter_witness :
    c6_params.guarantor ≠ "" ∧
    searchBeneficiaries c6_params [c6_raw] =
      ([c6_raw].map normalizeBeneficiary).filter
        (matchesLocalFilter (jsToLower c6_params.guarantor)) :=
  ⟨by decide, C6_amended_local_filter.1 c6_params [c6_raw] (by decide)⟩

/-- C1 counterexample: with detail and fingerprints resolving and the
facial invoke rejecting, syncPatient succeeds (success is true, not
false) and overwrites the previously non-empty facial biometric with ""
- the facial rejection is swallowed inside getFacialBiometry, so it
never fails the whole operation. -/
theorem C1_counterexample :
    c1_env.detail = Except.ok c1_detail ∧
    c1_env.fingerprints = Except.ok [] ∧
    c1_env.facial = Except.error "Network Error" ∧
    c1_patient.facialBiometric = "OLD" ∧
    (syncPatient c1_patient c1_env).success = true ∧
    (syncPatient c1_patient c1_env).updatedPatient.map
      (fun p => p.facialBiometric) = some "" := by
  refine ⟨rfl, rfl, rfl, rfl, by decide, by decide⟩

/-- C1 amended: only a rejection of the detail fetch makes syncPatient
fail as a whole (with success false, an error message and no partial
update); rejections of the fingerprints or facial invokes are swallowed
by their client functions, so when the facial fetch rejects while detail
succeeds the operation still succeeds, with the facial biometric
replaced by the empty string. -/
theorem C1_amended_failure_policy :
    (∀ (patient : Patient) (env : FetchEnv) (e : String),
      patient.imported = true → env.detail = Except.error e →
      syncPatient patient env =
        { success := false,
          message := "Erro ao sincronizar paciente: " ++ e,
          updatedPatient := none }) ∧
    (∀ (patient : Patient) (env : FetchEnv) (d : RawDetails) (e : String),
      patient.imported = true → env.detail = Except.ok d →
      env.facial = Except.error e →
      (syncPatient patient env).success = true ∧
      (syncPatient patient env).updatedPatient.map
        (fun p => p.facialBiometric) = some "") := by
  constructor
  · intro patient env e himp hdet
    simp [syncPatient, himp, getBeneficiaryDetails, hdet, Except.map]
  · intro patient env d e himp hdet hfac
    simp [syncPatient, himp, getBeneficiaryDetails, hdet, Except.map,
      getFacialBiometry, hfac]

/-- C1 witness: the success half of the amended policy at the concrete
facial-rejection scenario. -/
theorem C1_amended_failure_policy_witness :
    c1_patient.imported = true ∧
    ((syncPatient c1_patient c1_env).success = true ∧
     (syncPatient c1_patient c1_env).updatedPatient.map
       (fun p => p.facialBiometric) = some "") :=
  ⟨rfl, C1_amended_failure_policy.2 c1_patient c1_env c1_detail
    "Network Error" rfl rfl rfl⟩

/-- C2 counterexample: a successful syncPatient keeps a digitalBiometrics
entry whose data is empty - the synchronize path maps the fingerprint
response without the empty-data filter the import path applies. -/
theorem C2_counterexample :
    (syncPatient c2_patient c2_env).success = true ∧
    (syncPatient c2_patient c2_env).updatedPatient.map
      (fun p => p.digitalBiometrics) =
      some [{ finger := "Mínimo Esquerdo", data := "" }] := by
  refine ⟨by decide, by decide⟩

/-- C2 amended: the two import paths filter out fingerprint entries with
empty data, so every digitalBiometrics entry of an imported draft has
non-empty data; the synchronize path performs no such filtering. -/
theorem C2_amended_import_filter :
    (∀ (b : Beneficiary) (fps : Except String (List RawFingerprint))
       (facial : Except String FacialRaw),
      ∀ entry ∈ (importPatient b fps facial).digitalBiometrics,
        entry.data ≠ "") ∧
    (∀ (card : String) (detailResp : Except String RawDetails)
       (fps : Except String (List RawFingerprint))
       (facial : Except String FacialRaw) (p : Patient),
      handleCardSearch card detailResp fps facial = Except.ok p →
      ∀ entry ∈ p.digitalBiometrics, entry.data ≠ "") := by
  constructor
  · intro b fps facial entry h
    simp [importPatient, List.mem_filter] at h
    exact h.2
  · intro card detailResp fps facial p hp entry he
    by_cases hcard : jsTrim card = ""
    · simp [handleCardSearch, hcard] at hp
    · cases hdet : getBeneficiaryDetails (jsTrim card) detailResp with
      | error e => simp [handleCardSearch, hcard, hdet] at hp
      | ok beneficiary =>
        simp [handleCardSearch, hcard, hdet] at hp
        subst hp
        simp [List.mem_filter] at he
        exact he.2

/-- C2 witness: the import-path filter at a concrete fingerprint response
mixing an empty and a non-empty payload. -/
theorem C2_amended_import_filter_witness :
    ({ finger := "Anelar Esquerdo", data := "bb" } : DigitalBiometric) ∈
      (importPatient c2_beneficiary c2_fpsResp
        (Except.ok FacialRaw.other)).digitalBiometrics ∧
    ({ finger := "Anelar Esquerdo", data := "bb" } : DigitalBiometric).data ≠ "" :=
  ⟨by decide, C2_amended_import_filter.1 c2_beneficiary c2_fpsResp
    (Except.ok FacialRaw.other)
    { finger := "Anelar Esquerdo", data := "bb" } (by decide)⟩

/-- C3: when syncPatient succeeds (imported patient, detail resolving),
the updated record follows the merge policy: the local name wins when
non-empty (else the directory-resolved name), the wallet becomes the
directory completeCardNumber when non-empty (else the existing wallet),
digitalBiometrics is the freshly mapped set and facialBiometric is the
freshly fetched value even when empty. -/
theorem C3_sync_merge_policy :
    ∀ (patient : Patient) (env : FetchEnv) (d : RawDetails),
      patient.imported = true → env.detail = Except.ok d →
      (syncPatient patient env).success = true ∧
      (syncPatient patient env).updatedPatient = some
        { patient with
          name := if patient.name = ""
            then jsTrim (normalizeDetails patient.wallet d).name
            else patient.name,
          wallet := if (normalizeDetails patient.wallet d).completeCardNumber = ""
            then patient.wallet
            else (normalizeDetails patient.wallet d).completeCardNumber,
          digitalBiometrics := (getFingerprints env.fingerprints).map
            (fun fp => { finger := getFingerName fp.fingerCode,
                         data := fp.biometry }),
          facialBiometric := getFacialBiometry env.facial } := by
  intro patient env d himp hdet
  constructor
  · simp [syncPatient, himp, getBeneficiaryDetails, hdet, Except.map]
  · simp only [syncPatient, himp, getBeneficiaryDetails, hdet, Except.map,
      Bool.not_true, Bool.false_eq_true, if_false]
    simp [normalizeDetails, jsOr_empty_right]
    simp [jsOr]

/-- C3 witness: the Maria scenario - local name "Maria", directory name
"Maria Souza", the local name wins. -/
theorem C3_sync_merge_policy_witness :
    c3_patient.imported = true ∧
    (syncPatient c3_patient c3_env).updatedPatient.map (fun p => p.name) =
      some "Maria" := by
  refine ⟨rfl, ?_⟩
  rw [(C3_sync_merge_policy c3_patient c3_env c3_details rfl rfl).2]
  decide

/-- C4: syncAllPatients on a list with no imported patient answers the
single informational failure; otherwise it returns exactly one SyncResult
per imported patient in input order, the j-th result being the sync of
the j-th imported patient against its own fetch outcomes - so one
patient's failure never aborts the batch. -/
theorem C4_syncAll_batch :
    (∀ (patients : List Patient) (envs : Nat → FetchEnv),
      patients.filter (fun p => p.imported) = [] →
      syncAllPatients patients envs =
        [{ success := false,
           message := "Nenhum paciente importado para sincronizar.",
           updatedPatient := none }]) ∧
    (∀ (patients : List Patient) (envs : Nat → FetchEnv),
      patients.filter (fun p => p.imported) ≠ [] →
      (syncAllPatients patients envs).length =
        (patients.filter (fun p => p.imported)).length ∧
      ∀ j : Nat,
        (syncAllPatients patients envs)[j]? =
          ((patients.filter (fun p => p.imported))[j]?).map
            (fun p => syncPatient p (envs j))) := by
  constructor
  · intro patients envs h
    simp [syncAllPatients, h]
  · intro patients envs h
    have hlen : (patients.filter (fun p => p.imported)).length ≠ 0 := by
      simpa [List.length_eq_zero] using h
    constructor
    · simp [syncAllPatients, hlen, runSync_length]
    · intro j
      simp only [syncAllPatients, hlen, if_false]
      simpa using runSync_getElem envs 0 j (patients.filter (fun p => p.imported))

/-- C4 witness: three imported patients with the second one's detail
fetch rejecting - three results, the middle one failed, the batch
undisturbed. -/
theorem C4_syncAll_batch_witness :
    c4_patients.filter (fun p => p.imported) ≠ [] ∧
    (syncAllPatients c4_patients c4_envs).length =
      (c4_patients.filter (fun p => p.imported)).length ∧
    (syncAllPatients c4_patients c4_envs).map (fun r => r.success) =
      [true, false, true] :=
  ⟨by decide, (C4_syncAll_batch.2 c4_patients c4_envs (by decide)).1, by decide⟩

/-- C10: whenever syncPatient returns an updated record, that record has
the same id and the same imported flag as the input patient - the
synchronize path rewrites only name, wallet, digitalBiometrics and
facialBiometric. -/
theorem C10_sync_preserves_identity :
    ∀ (patient : Patient) (env : FetchEnv) (up : Patient),
      (syncPatient patient env).updatedPatient = some up →
      up.id = patient.id ∧ up.imported = patient.imported := by
  intro patient env up h
  by_cases himp : patient.imported = true
  · cases hdet : env.detail with
    | error e =>
      simp [syncPatient, himp, getBeneficiaryDetails, hdet, Except.map] at h
    | ok d =>
      simp [syncPatient, himp, getBeneficiaryDetails, hdet, Except.map] at h
      subst h
      exact ⟨rfl, himp.symm⟩
  · have himp2 : patient.imported = false := by
      cases hpi : patient.imported
      · rfl
      · exact absurd hpi himp
    simp [syncPatient, himp2] at h

/-- C10 witness: identity preservation at a concrete successful sync. -/
theorem C10_sync_preserves_identity_witness :
    (syncPatient c10_patient c10_env).updatedPatient = some c10_updated ∧
    (c10_updated.id = c10_patient.id ∧
     c10_updated.imported = c10_patient.imported) :=
  ⟨by decide, C10_sync_preserves_identity c10_patient c10_env c10_updated
    (by decide)⟩
